import Mathlib

/-!
Verification of the ExternalFlash driver (src/ExternalFlashBackup.c): a shallow
embedding of its data model (instance configuration map, per-instance run-state,
module state), its entry points (`ExternalFlash__Initialize`, `ExternalFlash__Read`,
`ExternalFlash__Write`, `ExternalFlash__GetAllocation`), its periodic poll handler
(`ExternalFlash_Handler`), its asynchronous bus-event classifier
(`CommBusEventHandler`), and the wire-header codec (`SendReadHeader` /
`SendWriteHeader`).

Machine integers are modelled as `Nat` with explicit `% 2^w` reductions where the
C code can overflow or truncate (uint8 channel handles and address bytes, uint16
sizes/progress/page addresses, uint32 target addresses).  External collaborators
(bus transport, digital I/O, timers, callback registry) are modelled as oracles
and as an emitted list of side-effect records, since the driver only observes
their boolean results.
-/

namespace ExternalFlashBackup

/-- Invalid marker for 8-bit values. Modelled from the spec: `INVALID_VALUE_8`
comes from the Utilities header outside src/; it is the all-ones byte used as
the "unbound"/"unallocated" sentinel for channel handles and timer handles. -/
def INVALID_VALUE_8 : Nat := 255

/-- Device page size in bytes (`EXTERNAL_FLASH_PAGE_SIZE`, 256). -/
def EXTERNAL_FLASH_PAGE_SIZE : Nat := 256

/-- Number of pages (`EXTERNAL_FLASH_PAGE_NUMBER`, 1024). -/
def EXTERNAL_FLASH_PAGE_NUMBER : Nat := 1024

/-- `EXTERNAL_FLASH_CMD_WRITE_MEMORY` (0x58). -/
def EXTERNAL_FLASH_CMD_WRITE_MEMORY : Nat := 0x58

/-- `EXTERNAL_FLASH_CMD_READ_MEMORY` (0xd2). -/
def EXTERNAL_FLASH_CMD_READ_MEMORY : Nat := 0xd2

/-- `EXTERNAL_FLASH_WAIT_TIMEOUT_MS` (50). -/
def EXTERNAL_FLASH_WAIT_TIMEOUT_MS : Nat := 50

/-- Low byte of a 16-bit value. Modelled from the spec: `LOBYTE` is a Utilities
macro outside src/; the event classifier reads the transferred byte count from
the low byte of the event value. -/
def LOBYTE (x : Nat) : Nat := x % 256

/-- High byte of a 16-bit value (`HIBYTE` macro, same provenance as `LOBYTE`). -/
def HIBYTE (x : Nat) : Nat := x / 256 % 256

/-- Pack two bytes, high then low. Modelled from the spec: `COMBINE_BYTES` is a
Utilities macro outside src/; the completion notifier packs the just-finished
process marker with the byte count of the operation into one event value. -/
def COMBINE_BYTES (hi lo : Nat) : Nat := hi % 256 * 256 + lo % 256

/-- `EXTERNAL_FLASH_STATE_TYPE`: the state-machine states, in source order.
`stInit` is `EXTERNAL_FLASH_STATE_INITIALIZE`, `stIdle` is `..._IDLE`, and so
on; the four status-register states are declared but never entered. -/
inductive NVMState where
  | stInit
  | stIdle
  | stSendReadHeader
  | stWaitSendReadHeader
  | stRead
  | stSendWriteHeader
  | stWaitSendWriteHeader
  | stWrite
  | stSendSRBeforeRead
  | stReadSRBeforeRead
  | stSendSRBeforeWrite
  | stReadSRBeforeWrite
  | stInvalid
  deriving DecidableEq

/-- `NVDATA_PROCESS_*`: the logical-process marker of an instance
(none, wait-read, read, wait-write, write). -/
inductive NVProcess where
  | pNone
  | pWaitRead
  | pRead
  | pWaitWrite
  | pWrite
  deriving DecidableEq

/-- Numeric value of the `NVDATA_PROCESS_*` enum. Modelled from the spec: the
enum lives in the NVMemory header outside src/; values follow the spec's listed
order `none | wait-read | read | wait-write | write`. -/
def processCode : NVProcess → Nat
  | .pNone => 0
  | .pWaitRead => 1
  | .pRead => 2
  | .pWaitWrite => 3
  | .pWrite => 4

/-- `NVMEMORY_INSTANCE_TYPE`: the mutable run-state of one logical instance
(one element of `ExternalFlash_Instance_Store`).  Pointers are modelled as
numeric tags; `mirrorPointer = 0` is the C `NULL`. -/
structure NVMInstance where
  busChannel : Nat
  state : NVMState
  process : NVProcess
  targetAddress : Nat
  bufferPointer : Nat
  bufferSize : Nat
  bufferProgress : Nat
  mirrorPointer : Nat
  memoryOffset : Nat
  deriving DecidableEq

/-- `EXTERNAL_FLASH_MAP_TYPE`: one immutable configuration entry. -/
structure FlashMapEntry where
  channel : Nat
  providerBoundId : Nat
  wpPin : Nat
  wpFeature : Bool
  wpLevel : Bool
  resetPin : Nat
  resetFeature : Bool
  resetLevel : Bool
  commBusId : Nat
  deriving DecidableEq

/-- A zeroed run-state record, as `memset(..., 0x00, ...)` produces it. -/
def defaultInstance : NVMInstance :=
  { busChannel := 0, state := .stInit, process := .pNone, targetAddress := 0,
    bufferPointer := 0, bufferSize := 0, bufferProgress := 0,
    mirrorPointer := 0, memoryOffset := 0 }

/-- Default configuration entry, used only as the out-of-range default of
list lookups (the driver guards every real access by the instance count). -/
def defaultEntry : FlashMapEntry :=
  { channel := 0, providerBoundId := 0, wpPin := 0, wpFeature := false,
    wpLevel := false, resetPin := 0, resetFeature := false, resetLevel := false,
    commBusId := 0 }

/-- The bus-transport capability set of one provider
(`GENERIC_COMM_BUS_HANDLERS[...]`): any entry may be absent (`none` = NULL
function pointer).  `start` maps a channel handle to the success of
`StartTransaction`; `writeB`/`readB` map a channel handle and a transfer
length to the success of `Write`/`Read`. -/
structure BusTransport where
  start : Option (Nat → Bool)
  writeB : Option (Nat → Nat → Bool)
  readB : Option (Nat → Nat → Bool)

/-- One call the driver makes into a collaborator, recorded for frame/effect
reasoning: bus transaction control, bus transfers, digital-I/O pin writes,
timer management, the RAM-mirror memcpy, and scheduler requests. -/
inductive SideEffect where
  | startTransaction (channel : Nat)
  | stopTransaction (channel : Nat)
  | busWrite (channel : Nat) (bytes : List Nat)
  | busWritePayload (channel ptr offset len : Nat)
  | busRead (channel ptr len : Nat)
  | dioWrite (pin : Nat) (level : Bool)
  | timerAllocate
  | timerSetMs (ms : Nat)
  | timerRelease (handle : Nat)
  | mirrorCopy (ptr offset len : Nat)
  | resumeTask
  | immediateReq
  deriving DecidableEq

/-- Event record handed to `Callback__Notify` by `ExecuteCallBack`: the source
instance id and the packed event value (the provider stamp
`GENERIC_NVDATA_EXTERNAL_FLASH` is a constant outside src/ and is omitted). -/
structure FlashNotify where
  sourceInstanceId : Nat
  eventValue : Nat
  deriving DecidableEq

/-- The module's mutable static state: `ExternalFlash_Instance_Store` and the
shared `ExternalFlash_Timeout_Handle`. -/
structure ModuleState where
  instances : List NVMInstance
  timeoutHandle : Nat
  deriving DecidableEq

/-- Run-state of instance `i` (`ExternalFlash_Instance_Store[i]`). -/
def instGet (s : ModuleState) (i : Nat) : NVMInstance :=
  s.instances.getD i defaultInstance

/-- `CALLBACK_EVENT_TYPE` as `CommBusEventHandler` decodes it: the provider id
of the bus that fired, the bus channel handle that completed
(`Source_Instance_Id`), and the packed event value whose low byte is the
transferred byte count. -/
structure BusEvent where
  genericProviderId : Nat
  sourceInstanceId : Nat
  eventValue : Nat
  deriving DecidableEq

/-- Address split used by both header builders: the page address is
`address / EXTERNAL_FLASH_PAGE_NUMBER` stored in a uint16, the byte address is
`address % EXTERNAL_FLASH_PAGE_NUMBER` stored in a uint8 (the source declares
`uint8_t byte_address`, so the value is truncated modulo 256). -/
def pageAddressOf (a : Nat) : Nat := a / EXTERNAL_FLASH_PAGE_NUMBER % 65536

/-- Byte-address half of the split; see `pageAddressOf`. -/
def byteAddressOf (a : Nat) : Nat := a % EXTERNAL_FLASH_PAGE_NUMBER % 256

/-- The five bytes `SendReadHeader` puts on the wire: the read opcode, the
little-endian uint16 page address, the uint8 byte address, and one dummy byte
(the static header buffer is zero-initialized). -/
def readHeaderBytes (a : Nat) : List Nat :=
  [EXTERNAL_FLASH_CMD_READ_MEMORY,
   pageAddressOf a % 256, pageAddressOf a / 256, byteAddressOf a, 0]

/-- `EXTERNAL_FLASH_WRITE_HEADER_TYPE`: opcode byte plus three address bytes. -/
structure WriteHeader where
  opcode : Nat
  address : List Nat
  deriving DecidableEq

/-- The header `SendWriteHeader` builds, mirroring the source's two opcode
assignments: the opcode field is first set to `EXTERNAL_FLASH_CMD_WRITE_MEMORY`
and then unconditionally overwritten with `EXTERNAL_FLASH_CMD_READ_MEMORY`
before the address bytes are filled in. -/
def buildWriteHeader (a : Nat) : WriteHeader :=
  let h0 : WriteHeader :=
    { opcode := EXTERNAL_FLASH_CMD_WRITE_MEMORY, address := [0, 0, 0] }
  let p := pageAddressOf a
  let b := byteAddressOf a
  let h1 : WriteHeader := { h0 with opcode := EXTERNAL_FLASH_CMD_READ_MEMORY }
  { h1 with address := [p % 256, p / 256, b] }

/-- The four bytes `SendWriteHeader` puts on the wire. -/
def writeHeaderBytes (a : Nat) : List Nat :=
  (buildWriteHeader a).opcode :: (buildWriteHeader a).address

/-- First clamp of the write chunk: `MIN(NVM_Buffer_Size - NVM_Buffer_Progress,
EXTERNAL_FLASH_PAGE_SIZE)` with C uint16 values promoted to int; a negative
difference survives the MIN and wraps modulo 2^16 on assignment to the uint16
`write_size` (both inputs are < 2^16 in every reachable state). -/
def chunkRemaining (size progress : Nat) : Nat :=
  if progress ≤ size then min (size - progress) EXTERNAL_FLASH_PAGE_SIZE
  else 65536 + size - progress

/-- Second clamp: `write_size = MIN(EXTERNAL_FLASH_PAGE_SIZE - ((target +
progress) % EXTERNAL_FLASH_PAGE_SIZE), write_size)` — the distance to the next
page boundary from the current write offset. -/
def writeChunk (size progress addr : Nat) : Nat :=
  min (EXTERNAL_FLASH_PAGE_SIZE - (addr + progress) % EXTERNAL_FLASH_PAGE_SIZE)
    (chunkRemaining size progress)

/-- The shared-timeout bookkeeping every bus transfer performs on success: if
`ExternalFlash_Timeout_Handle` is still invalid, allocate a handle (`fresh` is
the handle the timer collaborator returns) and start the 50 ms timeout. -/
def allocTimeout (fresh tmo : Nat) : Nat × List SideEffect :=
  if tmo = INVALID_VALUE_8 then
    (fresh, [SideEffect.timerAllocate, SideEffect.timerSetMs EXTERNAL_FLASH_WAIT_TIMEOUT_MS])
  else (tmo, [])

/-- Result of one of the private transfer helpers: its boolean return, the
timeout handle after it, and the collaborator calls it made. -/
structure SendResult where
  success : Bool
  timeoutHandle : Nat
  ops : List SideEffect
  deriving DecidableEq

/-- `SendReadHeader`: build the read header from `NVM_Target_Address` and put
it on the bus through the provider's `Write` capability; on transport success
start the shared timeout. -/
def sendReadHeader (cfg : List FlashMapEntry) (bus : Nat → BusTransport)
    (fresh iid : Nat) (inst : NVMInstance) (tmo : Nat) : SendResult :=
  let e := cfg.getD iid defaultEntry
  match (bus e.commBusId).writeB with
  | none => { success := false, timeoutHandle := tmo, ops := [] }
  | some w =>
    let bytes := readHeaderBytes inst.targetAddress
    if w inst.busChannel bytes.length then
      let t := allocTimeout fresh tmo
      { success := true, timeoutHandle := t.1,
        ops := SideEffect.busWrite inst.busChannel bytes :: t.2 }
    else
      { success := false, timeoutHandle := tmo,
        ops := [SideEffect.busWrite inst.busChannel bytes] }

/-- `SendWriteHeader`: build the write header from `NVM_Target_Address +
NVM_Buffer_Progress` (uint32 sum) and put it on the bus; on transport success
start the shared timeout. -/
def sendWriteHeader (cfg : List FlashMapEntry) (bus : Nat → BusTransport)
    (fresh iid : Nat) (inst : NVMInstance) (tmo : Nat) : SendResult :=
  let e := cfg.getD iid defaultEntry
  match (bus e.commBusId).writeB with
  | none => { success := false, timeoutHandle := tmo, ops := [] }
  | some w =>
    let bytes := writeHeaderBytes ((inst.targetAddress + inst.bufferProgress) % 4294967296)
    if w inst.busChannel bytes.length then
      let t := allocTimeout fresh tmo
      { success := true, timeoutHandle := t.1,
        ops := SideEffect.busWrite inst.busChannel bytes :: t.2 }
    else
      { success := false, timeoutHandle := tmo,
        ops := [SideEffect.busWrite inst.busChannel bytes] }

/-- `ReadData`: read `NVM_Buffer_Size` payload bytes into the client buffer
through the provider's `Read` capability; on success start the shared
timeout. -/
def readData (cfg : List FlashMapEntry) (bus : Nat → BusTransport)
    (fresh iid : Nat) (inst : NVMInstance) (tmo : Nat) : SendResult :=
  let e := cfg.getD iid defaultEntry
  match (bus e.commBusId).readB with
  | none => { success := false, timeoutHandle := tmo, ops := [] }
  | some r =>
    if r inst.busChannel inst.bufferSize then
      let t := allocTimeout fresh tmo
      { success := true, timeoutHandle := t.1,
        ops := SideEffect.busRead inst.busChannel inst.bufferPointer inst.bufferSize :: t.2 }
    else
      { success := false, timeoutHandle := tmo,
        ops := [SideEffect.busRead inst.busChannel inst.bufferPointer inst.bufferSize] }

/-- `WriteData`: write `write_size` payload bytes starting at
`NVM_Buffer_Pointer + NVM_Buffer_Progress` through the provider's `Write`
capability; on success start the shared timeout. -/
def writeData (cfg : List FlashMapEntry) (bus : Nat → BusTransport)
    (fresh iid : Nat) (inst : NVMInstance) (tmo writeSize : Nat) : SendResult :=
  let e := cfg.getD iid defaultEntry
  match (bus e.commBusId).writeB with
  | none => { success := false, timeoutHandle := tmo, ops := [] }
  | some w =>
    if w inst.busChannel writeSize then
      let t := allocTimeout fresh tmo
      { success := true, timeoutHandle := t.1,
        ops := SideEffect.busWritePayload inst.busChannel inst.bufferPointer
                 inst.bufferProgress writeSize :: t.2 }
    else
      { success := false, timeoutHandle := tmo,
        ops := [SideEffect.busWritePayload inst.busChannel inst.bufferPointer
                  inst.bufferProgress writeSize] }

/-- Result of one poll step on one instance: its new run-state, the timeout
handle after the step, the collaborator calls made, and the completion
notification fired through `ExecuteCallBack`, if any. -/
structure PollResult where
  inst : NVMInstance
  timeoutHandle : Nat
  ops : List SideEffect
  notif : Option FlashNotify
  deriving DecidableEq

/-- A poll step that does nothing (the `IDLE`, `INITIALIZE`, status-register
and `INVALID` cases of the switch, and every unsatisfied process guard). -/
def pollNoop (inst : NVMInstance) (tmo : Nat) : PollResult :=
  { inst := inst, timeoutHandle := tmo, ops := [], notif := none }

/-- The `nv_callback` record the handler fills before notifying: the source
instance id, and `COMBINE_BYTES(NVM_Current_Process, NVM_Buffer_Size)` taken
while the just-finished process marker is still set. -/
def mkNotify (i : Nat) (inst : NVMInstance) : FlashNotify :=
  { sourceInstanceId := i,
    eventValue := COMBINE_BYTES (processCode inst.process) inst.bufferSize }

/-- `EXTERNAL_FLASH_STATE_SEND_READ_HEADER` case of `ExternalFlash_Handler`:
once the process marker reaches `write` (header bytes transmitted), advance to
`wait-read` / state `READ` and issue the payload read. -/
def pollSendReadHeader (cfg : List FlashMapEntry) (bus : Nat → BusTransport)
    (fresh i : Nat) (inst : NVMInstance) (tmo : Nat) : PollResult :=
  if inst.process = NVProcess.pWrite then
    let inst1 := { inst with process := NVProcess.pWaitRead, state := NVMState.stRead }
    let r := readData cfg bus fresh i inst1 tmo
    { inst := inst1, timeoutHandle := r.timeoutHandle, ops := r.ops, notif := none }
  else pollNoop inst tmo

/-- `EXTERNAL_FLASH_STATE_READ` case: once the process marker reaches `read`
(payload received), stop the transaction, fill the callback record, reset to
`idle` with process `none`, and fire the notification. -/
def pollRead (i : Nat) (inst : NVMInstance) (tmo : Nat) : PollResult :=
  if inst.process = NVProcess.pRead then
    let n := mkNotify i inst
    { inst := { inst with process := NVProcess.pNone, state := NVMState.stIdle },
      timeoutHandle := tmo,
      ops := [SideEffect.stopTransaction inst.busChannel], notif := some n }
  else pollNoop inst tmo

/-- `EXTERNAL_FLASH_STATE_SEND_WRITE_HEADER` case: once the process marker
reaches `write` (header transmitted), compute the page-bounded chunk size,
start a new bus transaction, move to `wait-write` / state `WRITE`, and emit
the chunk. -/
def pollSendWriteHeader (cfg : List FlashMapEntry) (bus : Nat → BusTransport)
    (fresh i : Nat) (inst : NVMInstance) (tmo : Nat) : PollResult :=
  if inst.process = NVProcess.pWrite then
    let ws := writeChunk inst.bufferSize inst.bufferProgress inst.targetAddress
    match (bus (cfg.getD i defaultEntry).commBusId).start with
    | none => pollNoop inst tmo
    | some st =>
      if st inst.busChannel then
        let inst1 := { inst with process := NVProcess.pWaitWrite, state := NVMState.stWrite }
        let r := writeData cfg bus fresh i inst1 tmo ws
        { inst := inst1, timeoutHandle := r.timeoutHandle,
          ops := SideEffect.startTransaction inst.busChannel :: r.ops, notif := none }
      else
        { inst := inst, timeoutHandle := tmo,
          ops := [SideEffect.startTransaction inst.busChannel], notif := none }
  else pollNoop inst tmo

/-- `EXTERNAL_FLASH_STATE_WRITE` case: once the process marker reaches `write`
(chunk transmitted), stop the transaction; if progress is still below the
requested size, call `SendWriteHeader` (the source leaves `NVM_State` at
`WRITE` and the process marker at `write` here); otherwise re-assert write
protection when configured, fire the completion notification and reset to
`idle`. -/
def pollWrite (cfg : List FlashMapEntry) (bus : Nat → BusTransport)
    (fresh i : Nat) (inst : NVMInstance) (tmo : Nat) : PollResult :=
  if inst.process = NVProcess.pWrite then
    if inst.bufferProgress < inst.bufferSize then
      let r := sendWriteHeader cfg bus fresh i inst tmo
      { inst := inst, timeoutHandle := r.timeoutHandle,
        ops := SideEffect.stopTransaction inst.busChannel :: r.ops, notif := none }
    else
      let e := cfg.getD i defaultEntry
      let wpOps := if e.wpFeature then [SideEffect.dioWrite e.wpPin (!e.wpLevel)] else []
      let n := mkNotify i inst
      { inst := { inst with process := NVProcess.pNone, state := NVMState.stIdle },
        timeoutHandle := tmo,
        ops := SideEffect.stopTransaction inst.busChannel :: wpOps,
        notif := some n }
  else pollNoop inst tmo

/-- One iteration of the `ExternalFlash_Handler` loop body for instance `i`:
the switch over `NVM_State`. -/
def pollInstance (cfg : List FlashMapEntry) (bus : Nat → BusTransport)
    (fresh i : Nat) (inst : NVMInstance) (tmo : Nat) : PollResult :=
  if inst.state = NVMState.stSendReadHeader then pollSendReadHeader cfg bus fresh i inst tmo
  else if inst.state = NVMState.stRead then pollRead i inst tmo
  else if inst.state = NVMState.stSendWriteHeader then pollSendWriteHeader cfg bus fresh i inst tmo
  else if inst.state = NVMState.stWrite then pollWrite cfg bus fresh i inst tmo
  else pollNoop inst tmo

/-- The full handler loop over the instance store from index `i`, threading
the shared timeout handle and collecting collaborator calls and
notifications. -/
def handlerLoop (cfg : List FlashMapEntry) (bus : Nat → BusTransport) (fresh : Nat) :
    List NVMInstance → Nat → Nat →
    List NVMInstance × Nat × List SideEffect × List FlashNotify
  | [], _, tmo => ([], tmo, [], [])
  | inst :: rest, i, tmo =>
    let r := pollInstance cfg bus fresh i inst tmo
    let rec2 := handlerLoop cfg bus fresh rest (i + 1) r.timeoutHandle
    (r.inst :: rec2.1, rec2.2.1, r.ops ++ rec2.2.2.1, r.notif.toList ++ rec2.2.2.2)

/-- Result of one periodic `ExternalFlash_Handler` tick. -/
structure HandlerResult where
  s : ModuleState
  ops : List SideEffect
  notifs : List FlashNotify
  deriving DecidableEq

/-- `ExternalFlash_Handler`: one periodic poll tick over every instance. -/
def externalFlash_Handler (cfg : List FlashMapEntry) (bus : Nat → BusTransport)
    (fresh : Nat) (s : ModuleState) : HandlerResult :=
  let r := handlerLoop cfg bus fresh s.instances 0 s.timeoutHandle
  { s := { instances := r.1, timeoutHandle := r.2.1 },
    ops := r.2.2.1, notifs := r.2.2.2 }

/-- Result of a client-facing `Read`/`Write` call: its boolean return, the
module state after it, and the collaborator calls made. -/
structure CallResult where
  success : Bool
  s : ModuleState
  ops : List SideEffect
  deriving DecidableEq

/-- `ExternalFlash__Read`: accepted only for an in-range instance id with a
bound bus channel, state `IDLE` and process `none`, and a present
`StartTransaction` capability that returns TRUE; on acceptance the run-state
is loaded and the read header issued.  The source initializes its local
`success` to FALSE and never assigns TRUE on any path, so the returned flag is
FALSE even when the call is accepted. -/
def externalFlash_Read (cfg : List FlashMapEntry) (bus : Nat → BusTransport)
    (fresh : Nat) (s : ModuleState) (iid bufPtr addr size : Nat) : CallResult :=
  if iid < cfg.length then
    let inst := instGet s iid
    if inst.busChannel ≠ INVALID_VALUE_8 then
      if inst.process = NVProcess.pNone ∧ inst.state = NVMState.stIdle then
        match (bus (cfg.getD iid defaultEntry).commBusId).start with
        | none => { success := false, s := s, ops := [] }
        | some st =>
          if st inst.busChannel then
            let inst1 := { inst with
              bufferPointer := bufPtr,
              targetAddress := (inst.memoryOffset + addr % 4294967296) % 4294967296,
              bufferSize := size % 65536,
              bufferProgress := 0,
              process := NVProcess.pWaitWrite,
              state := NVMState.stSendReadHeader }
            let r := sendReadHeader cfg bus fresh iid inst1 s.timeoutHandle
            { success := false,
              s := { instances := s.instances.set iid inst1, timeoutHandle := r.timeoutHandle },
              ops := SideEffect.startTransaction inst.busChannel :: r.ops }
          else { success := false, s := s, ops := [SideEffect.startTransaction inst.busChannel] }
      else { success := false, s := s, ops := [] }
    else { success := false, s := s, ops := [] }
  else { success := false, s := s, ops := [] }

/-- `ExternalFlash__Write`: same acceptance guards as `Read`; on acceptance it
disables write protection when configured, loads the run-state, moves to
`SEND_WRITE_HEADER` / process `wait-write`, issues the write header, copies
the payload into the RAM mirror when one is registered, resumes the handler
task, and returns TRUE. -/
def externalFlash_Write (cfg : List FlashMapEntry) (bus : Nat → BusTransport)
    (fresh : Nat) (s : ModuleState) (iid bufPtr addr size : Nat) : CallResult :=
  if iid < cfg.length then
    let e := cfg.getD iid defaultEntry
    let inst := instGet s iid
    if inst.busChannel ≠ INVALID_VALUE_8 then
      if inst.process = NVProcess.pNone ∧ inst.state = NVMState.stIdle then
        match (bus e.commBusId).start with
        | none => { success := false, s := s, ops := [] }
        | some st =>
          if st inst.busChannel then
            let wpOps := if e.wpFeature then [SideEffect.dioWrite e.wpPin e.wpLevel] else []
            let inst1 := { inst with
              bufferPointer := bufPtr,
              targetAddress := (inst.memoryOffset + addr % 4294967296) % 4294967296,
              bufferSize := size % 65536,
              bufferProgress := 0,
              process := NVProcess.pWaitWrite,
              state := NVMState.stSendWriteHeader }
            let r := sendWriteHeader cfg bus fresh iid inst1 s.timeoutHandle
            let mirrorOps :=
              if inst.mirrorPointer ≠ 0 then
                [SideEffect.mirrorCopy inst.mirrorPointer (addr % 4294967296) (size % 65536)]
              else []
            { success := true,
              s := { instances := s.instances.set iid inst1, timeoutHandle := r.timeoutHandle },
              ops := SideEffect.startTransaction inst.busChannel ::
                       (wpOps ++ r.ops ++ mirrorOps ++ [SideEffect.resumeTask]) }
          else { success := false, s := s, ops := [SideEffect.startTransaction inst.busChannel] }
      else { success := false, s := s, ops := [] }
    else { success := false, s := s, ops := [] }
  else { success := false, s := s, ops := [] }

/-- First index of the configuration map whose `ExternalFlash_Channel` equals
the client id, as the `ExternalFlash__GetAllocation` loop finds it. -/
def findChannelIdx : List FlashMapEntry → Nat → Option Nat
  | [], _ => none
  | e :: rest, c =>
    if e.channel = c then some 0 else (findChannelIdx rest c).map (fun k => k + 1)

/-- `ExternalFlash__GetAllocation`: scan the configuration map for the client
id; on a match cache the mirror pointer and memory offset in that instance and
return its index.  With no match the `for` loop runs to completion, so the
returned id is the loop bound `ELEMENTS_IN_ARRAY(ExternalFlash_Map)` — the
instance count — not the `INVALID_VALUE_8` the local was initialized to (that
initial value is dead, overwritten by the loop initializer). -/
def externalFlash_GetAllocation (cfg : List FlashMapEntry) (s : ModuleState)
    (clientId mirrorPtr offset : Nat) : Nat × ModuleState :=
  match findChannelIdx cfg (clientId % 256) with
  | some i =>
    let inst := instGet s i
    let inst1 := { inst with mirrorPointer := mirrorPtr, memoryOffset := offset % 65536 }
    (i, { s with instances := s.instances.set i inst1 })
  | none => (cfg.length, s)

/-- Is the process marker one the event classifier acts on (`wait-read` or
`wait-write`)?  Every other marker falls into the switch's default, which
`continue`s to the next instance. -/
def isWaiting : NVProcess → Bool
  | NVProcess.pWaitRead => true
  | NVProcess.pWaitWrite => true
  | _ => false

/-- The `CommBusEventHandler` search loop from index `i`: find the first
instance whose bound provider and channel handle match the event and whose
process is `wait-read`/`wait-write`; advance its process marker, request
immediate handler execution, accumulate the event's low-byte transfer count
into progress (uint16), release and invalidate the shared timeout handle, and
stop.  The event's high byte (the bus process marker) is decoded by the source
but never used. -/
def busEventLoop (cfg : List FlashMapEntry) (ev : BusEvent) :
    List NVMInstance → Nat → Nat →
    List NVMInstance × Nat × List SideEffect
  | [], _, tmo => ([], tmo, [])
  | inst :: rest, i, tmo =>
    if (cfg.getD i defaultEntry).commBusId = ev.genericProviderId ∧
       inst.busChannel = ev.sourceInstanceId then
      match inst.process with
      | NVProcess.pWaitRead =>
        let inst1 := { inst with
          process := NVProcess.pRead,
          bufferProgress := (inst.bufferProgress + LOBYTE ev.eventValue) % 65536 }
        (inst1 :: rest, INVALID_VALUE_8,
         [SideEffect.immediateReq, SideEffect.timerRelease tmo])
      | NVProcess.pWaitWrite =>
        let inst1 := { inst with
          process := NVProcess.pWrite,
          bufferProgress := (inst.bufferProgress + LOBYTE ev.eventValue) % 65536 }
        (inst1 :: rest, INVALID_VALUE_8,
         [SideEffect.immediateReq, SideEffect.timerRelease tmo])
      | _ =>
        let rec2 := busEventLoop cfg ev rest (i + 1) tmo
        (inst :: rec2.1, rec2.2.1, rec2.2.2)
    else
      let rec2 := busEventLoop cfg ev rest (i + 1) tmo
      (inst :: rec2.1, rec2.2.1, rec2.2.2)

/-- `CommBusEventHandler`: the asynchronous bus-completion entry point. -/
def commBusEventHandler (cfg : List FlashMapEntry) (s : ModuleState)
    (ev : BusEvent) : ModuleState × List SideEffect :=
  let r := busEventLoop cfg ev s.instances 0 s.timeoutHandle
  ({ instances := r.1, timeoutHandle := r.2.1 }, r.2.2)

/-- `ExternalFlash__Initialize`: zero the instance store, bind each instance
to its bus channel through the provider's `GetAllocation` capability (`alloc`;
the channel stays at the memset value 0 when the capability is absent), and
set every instance to state `INITIALIZE` with process `none`.  The initial
protect/reset pin writes, the event-handler registration and the task creation
only touch collaborators, not the instance store, and are omitted here. -/
def externalFlash_Initialize (cfg : List FlashMapEntry)
    (alloc : Nat → Option (Nat → Nat)) : ModuleState :=
  { instances := cfg.map (fun e =>
      { defaultInstance with
        busChannel := (match alloc e.commBusId with
                       | some f => f e.providerBoundId % 256
                       | none => 0),
        state := NVMState.stInit,
        process := NVProcess.pNone }),
    timeoutHandle := INVALID_VALUE_8 }

/-- Reference configuration. Modelled from the spec: `EXTERNAL_FLASH_MAP` and
`EXTERNAL_FLASH_CH_NUM` live in headers outside src/; the spec's scenarios use
instance ids 0 and 1, so the reference map holds two instances on one shared
bus provider, with the pin features disabled. -/
def cfgRef : List FlashMapEntry :=
  [ { channel := 0, providerBoundId := 0, wpPin := 1, wpFeature := false,
      wpLevel := false, resetPin := 2, resetFeature := false, resetLevel := false,
      commBusId := 0 },
    { channel := 1, providerBoundId := 1, wpPin := 3, wpFeature := false,
      wpLevel := false, resetPin := 4, resetFeature := false, resetLevel := false,
      commBusId := 0 } ]

/-- A bus transport with every capability present and succeeding. -/
def busAllOk : Nat → BusTransport := fun _ =>
  { start := some (fun _ => true),
    writeB := some (fun _ _ => true),
    readB := some (fun _ _ => true) }

/-- A bus transport whose `StartTransaction` is present but reports failure. -/
def busStartFails : Nat → BusTransport := fun _ =>
  { start := some (fun _ => false),
    writeB := some (fun _ _ => true),
    readB := some (fun _ _ => true) }

/-- An idle, bound instance with channel handle `ch` and no active process. -/
def idleInstance (ch : Nat) : NVMInstance :=
  { defaultInstance with busChannel := ch, state := NVMState.stIdle }

/-- Module state with both reference instances idle and bound (channels 3 and
4) and no timeout allocated — the baseline every operation starts from. -/
def sIdle : ModuleState :=
  { instances := [idleInstance 3, idleInstance 4], timeoutHandle := INVALID_VALUE_8 }

/-- The spec's write scenario: `Write(instance 0, buffer, address 0, size 300)`
issued from the idle baseline. -/
def w300 : CallResult := externalFlash_Write cfgRef busAllOk 7 sIdle 0 100 0 300

/-- A completion event from the bound bus (provider 0, channel 3) whose low
byte reports `n` transferred bytes. -/
def evLen (n : Nat) : BusEvent :=
  { genericProviderId := 0, sourceInstanceId := 3, eventValue := n }

/-- Scenario step: the event confirming the 4-byte write header of `w300`. -/
def sW1 : ModuleState := (commBusEventHandler cfgRef w300.s (evLen 4)).1

/-- Scenario step: the poll tick that emits the first payload chunk. -/
def hW1 : HandlerResult := externalFlash_Handler cfgRef busAllOk 7 sW1

/-- Scenario step: the event confirming the 252-byte first chunk. -/
def sW2 : ModuleState := (commBusEventHandler cfgRef hW1.s (evLen 252)).1

/-- Scenario step: the poll tick after the first chunk completed. -/
def hW2 : HandlerResult := externalFlash_Handler cfgRef busAllOk 7 sW2

/-- Scenario step: the following poll tick, which repeats `hW2` verbatim. -/
def hW3 : HandlerResult := externalFlash_Handler cfgRef busAllOk 7 hW2.s

/-- The module state right after `ExternalFlash__Initialize` on the reference
configuration, with the bus binding every instance to channel 3. -/
def sInit0 : ModuleState := externalFlash_Initialize cfgRef (fun _ => some (fun _ => 3))

/-- C1: the claim says `Initialize` leaves every configured instance in the
idle state (process none) so that a first `Read`/`Write` can be accepted.  The
code instead sets `NVM_State = EXTERNAL_FLASH_STATE_INITIALIZE`, a state the
poll handler's switch leaves untouched and no transition ever exits, so the
first `Read` and `Write` after initialization are rejected with the state
unchanged: after `Initialize`, instance 0 is in `stInit` (not `stIdle`) with
process `none`, `Read` and `Write` return failure without touching the
module state even though the transport is fully available, and a poll tick
leaves the initialized state fixed. -/
theorem C1_initialize_leaves_instances_in_init_not_idle :
    (instGet sInit0 0).state = NVMState.stInit ∧
    (instGet sInit0 0).process = NVProcess.pNone ∧
    NVMState.stInit ≠ NVMState.stIdle ∧
    externalFlash_Read cfgRef busAllOk 7 sInit0 0 100 0 16 =
      { success := false, s := sInit0, ops := [] } ∧
    externalFlash_Write cfgRef busAllOk 7 sInit0 0 100 0 16 =
      { success := false, s := sInit0, ops := [] } ∧
    (externalFlash_Handler cfgRef busAllOk 7 sInit0).s = sInit0 := by
  decide

/-- C2: the claim says an accepted `Read` (valid id, bound channel, idle with
process none, `StartTransaction` TRUE) returns success TRUE.  The code's local
`success` flag is initialized to FALSE and never assigned on the accepted
path, so the call performs the acceptance work — starts the transaction,
loads the run-state, moves to `SEND_READ_HEADER` with process `wait-write`,
sends the read header — and still returns FALSE.  The failure-to-start half
of the claim does hold: with `StartTransaction` reporting FALSE the instance
stays idle and no success is reported. -/
theorem C2_accepted_read_reports_false :
    (externalFlash_Read cfgRef busAllOk 7 sIdle 0 100 0 16).success = false ∧
    (instGet (externalFlash_Read cfgRef busAllOk 7 sIdle 0 100 0 16).s 0).state =
      NVMState.stSendReadHeader ∧
    (instGet (externalFlash_Read cfgRef busAllOk 7 sIdle 0 100 0 16).s 0).process =
      NVProcess.pWaitWrite ∧
    SideEffect.startTransaction 3 ∈ (externalFlash_Read cfgRef busAllOk 7 sIdle 0 100 0 16).ops ∧
    externalFlash_Read cfgRef busStartFails 7 sIdle 0 100 0 16 =
      { success := false, s := sIdle, ops := [SideEffect.startTransaction 3] } := by
  decide

/-- C3: the claim says the `write` poll state loops back into
`send-write-header` and that `Write(0, buf, 0, 300)` yields chunks of 256 at
offset 0 and 44 at offset 256 plus one completion with byte count 300.  On
the code: the event confirming the 4-byte write header is accumulated into
`NVM_Buffer_Progress` by `CommBusEventHandler`, so the first chunk is
`writeChunk 300 4 0 = 252` bytes taken from buffer offset 4 — not 256 at
offset 0; and after that chunk completes, the `WRITE` case calls
`SendWriteHeader` but leaves `NVM_State = WRITE` and the process marker at
`write`, so the machine never re-enters `SEND_WRITE_HEADER`, repeats the
identical header-resending tick forever, and never emits a completion
notification. -/
theorem C3_write_scenario_never_completes :
    w300.success = true ∧
    (instGet sW1 0).bufferProgress = 4 ∧
    writeChunk 300 4 0 = 252 ∧
    SideEffect.busWritePayload 3 100 4 252 ∈ hW1.ops ∧
    (252 : Nat) ≠ 256 ∧
    (instGet hW2.s 0).state = NVMState.stWrite ∧
    (instGet hW2.s 0).process = NVProcess.pWrite ∧
    hW2.notifs = [] ∧
    hW3.s = hW2.s ∧
    hW3.notifs = [] := by
  decide

/-- C5: the claim says the page/byte split packed into the header address
bytes is invertible on the (256-byte page, 1024-page) device range.  The code
computes `page = address / EXTERNAL_FLASH_PAGE_NUMBER` and `byte = address %
EXTERNAL_FLASH_PAGE_NUMBER` with the byte half stored in a `uint8_t`, so the
in-range addresses 0 and 256 produce identical read headers and identical
write headers; the encoding is not injective and no decode can recover the
address. -/
theorem C5_header_encoding_collides_at_256 :
    readHeaderBytes 256 = readHeaderBytes 0 ∧
    writeHeaderBytes 256 = writeHeaderBytes 0 ∧
    (256 : Nat) ≠ 0 ∧
    256 < EXTERNAL_FLASH_PAGE_SIZE * EXTERNAL_FLASH_PAGE_NUMBER := by
  decide

/-- C10: every header `SendWriteHeader` builds carries the read-memory opcode
0xD2: the initial assignment of the write-memory opcode 0x58 to the opcode
field is unconditionally overwritten with `EXTERNAL_FLASH_CMD_READ_MEMORY`
before the header goes on the bus, for every target address. -/
theorem C10_write_header_carries_read_opcode (a : Nat) :
    (buildWriteHeader a).opcode = EXTERNAL_FLASH_CMD_READ_MEMORY ∧
    EXTERNAL_FLASH_CMD_READ_MEMORY = 0xd2 ∧
    EXTERNAL_FLASH_CMD_WRITE_MEMORY = 0x58 ∧
    writeHeaderBytes a = 0xd2 :: (buildWriteHeader a).address := by
  exact ⟨rfl, rfl, rfl, rfl⟩

/-- The write-chunk formula's algebra: with at least one byte remaining, the
source's two `MIN` clamps equal the spec's `min(remaining, page)` further
clamped to the distance to the page boundary, and the chunk stays within the
current 256-byte page. -/
theorem writeChunk_bounds (size progress addr : Nat) (h1 : progress < size) :
    writeChunk size progress addr =
      min (min (size - progress) EXTERNAL_FLASH_PAGE_SIZE)
        (EXTERNAL_FLASH_PAGE_SIZE - (addr + progress) % EXTERNAL_FLASH_PAGE_SIZE) ∧
    1 ≤ writeChunk size progress addr ∧
    writeChunk size progress addr ≤ 256 ∧
    (addr + progress) % 256 + writeChunk size progress addr ≤ 256 := by
  have hm : (addr + progress) % 256 < 256 := Nat.mod_lt _ (by norm_num)
  unfold writeChunk chunkRemaining EXTERNAL_FLASH_PAGE_SIZE
  rw [if_pos (Nat.le_of_lt h1)]
  refine ⟨Nat.min_comm _ _, ?_, ?_, ?_⟩
  · exact le_min (by omega) (le_min (by omega) (by norm_num))
  · exact le_trans (min_le_right _ _) (min_le_right _ _)
  · have := min_le_left (256 - (addr + progress) % 256) (min (size - progress) 256)
    omega

/-- C4: in state `send-write-header` with process `write`, a started
transaction hands the payload write exactly
`writeChunk size progress target` bytes, taken at the current buffer offset;
and whenever at least one byte remains that chunk equals
`min(remaining, page_size)` further clamped to
`page_size − ((target + progress) mod page_size)`, satisfies
`1 ≤ chunk ≤ 256`, and `((target + progress) mod 256) + chunk ≤ 256`, so no
single payload transaction crosses a 256-byte page boundary. -/
theorem C4_write_chunk_never_crosses_page_boundary
    (cfg : List FlashMapEntry) (bus : Nat → BusTransport) (fresh i : Nat)
    (inst : NVMInstance) (tmo : Nat) (st : Nat → Bool) (w : Nat → Nat → Bool)
    (hst : inst.state = NVMState.stSendWriteHeader)
    (hpr : inst.process = NVProcess.pWrite)
    (hstart : (bus (cfg.getD i defaultEntry).commBusId).start = some st)
    (hok : st inst.busChannel = true)
    (hw : (bus (cfg.getD i defaultEntry).commBusId).writeB = some w)
    (hrem : inst.bufferProgress < inst.bufferSize) :
    SideEffect.busWritePayload inst.busChannel inst.bufferPointer inst.bufferProgress
        (writeChunk inst.bufferSize inst.bufferProgress inst.targetAddress) ∈
      (pollInstance cfg bus fresh i inst tmo).ops ∧
    writeChunk inst.bufferSize inst.bufferProgress inst.targetAddress =
      min (min (inst.bufferSize - inst.bufferProgress) EXTERNAL_FLASH_PAGE_SIZE)
        (EXTERNAL_FLASH_PAGE_SIZE -
          (inst.targetAddress + inst.bufferProgress) % EXTERNAL_FLASH_PAGE_SIZE) ∧
    1 ≤ writeChunk inst.bufferSize inst.bufferProgress inst.targetAddress ∧
    writeChunk inst.bufferSize inst.bufferProgress inst.targetAddress ≤ 256 ∧
    (inst.targetAddress + inst.bufferProgress) % 256 +
        writeChunk inst.bufferSize inst.bufferProgress inst.targetAddress ≤ 256 := by
  obtain ⟨heq, hb1, hb2, hb3⟩ :=
    writeChunk_bounds inst.bufferSize inst.bufferProgress inst.targetAddress hrem
  refine ⟨?_, heq, hb1, hb2, hb3⟩
  simp only [pollInstance, pollSendWriteHeader, writeData, hst, hpr, hstart, hok]
  simp only [reduceIte, reduceCtorEq, if_true, hw]
  cases hwr : w inst.busChannel
      (writeChunk inst.bufferSize inst.bufferProgress inst.targetAddress) <;>
    simp [hwr, allocTimeout]

/-- C6: a `Read` or `Write` call rejected by the entry guards — instance id
out of range, bus channel unbound, or the instance not in state `idle` with
process `none` — returns failure synchronously, performs no collaborator
call, and leaves the whole module state (every instance's state-machine
state, process marker, target address, buffer pointer, size and progress, and
the timeout handle) unchanged.  In particular a second `Write` issued while a
first one is in flight on the same instance fails and does not alter the
in-flight run-state. -/
theorem C6_rejected_call_fails_and_preserves_state
    (cfg : List FlashMapEntry) (bus : Nat → BusTransport) (fresh : Nat)
    (s : ModuleState) (iid ptr addr size : Nat)
    (hrej : cfg.length ≤ iid ∨ (instGet s iid).busChannel = INVALID_VALUE_8 ∨
            ¬((instGet s iid).process = NVProcess.pNone ∧
              (instGet s iid).state = NVMState.stIdle)) :
    externalFlash_Read cfg bus fresh s iid ptr addr size =
      { success := false, s := s, ops := [] } ∧
    externalFlash_Write cfg bus fresh s iid ptr addr size =
      { success := false, s := s, ops := [] } := by
  constructor
  · simp only [externalFlash_Read]
    split_ifs with h1 h2 h3 <;>
      first
      | rfl
      | (exfalso
         rcases hrej with h | h | h
         · omega
         · exact h2 h
         · exact h h3)
  · simp only [externalFlash_Write]
    split_ifs with h1 h2 h3 <;>
      first
      | rfl
      | (exfalso
         rcases hrej with h | h | h
         · omega
         · exact h2 h
         · exact h h3)

/-- An instance mid-write: header for the second step already confirmed
(process `write`), 4 header bytes accumulated into progress, 300 requested. -/
def instC4 : NVMInstance :=
  { defaultInstance with
    busChannel := 3, state := NVMState.stSendWriteHeader, process := NVProcess.pWrite,
    targetAddress := 0, bufferPointer := 100, bufferSize := 300, bufferProgress := 4 }

/-- Witness for C4 at the scenario's first chunk computation. -/
theorem C4_witness :
    instC4.state = NVMState.stSendWriteHeader ∧
    instC4.process = NVProcess.pWrite ∧
    (busAllOk (cfgRef.getD 0 defaultEntry).commBusId).start = some (fun _ => true) ∧
    ((fun (_ : Nat) => true) instC4.busChannel = true) ∧
    (busAllOk (cfgRef.getD 0 defaultEntry).commBusId).writeB = some (fun _ _ => true) ∧
    instC4.bufferProgress < instC4.bufferSize ∧
    (SideEffect.busWritePayload instC4.busChannel instC4.bufferPointer instC4.bufferProgress
        (writeChunk instC4.bufferSize instC4.bufferProgress instC4.targetAddress) ∈
      (pollInstance cfgRef busAllOk 7 0 instC4 255).ops ∧
    writeChunk instC4.bufferSize instC4.bufferProgress instC4.targetAddress =
      min (min (instC4.bufferSize - instC4.bufferProgress) EXTERNAL_FLASH_PAGE_SIZE)
        (EXTERNAL_FLASH_PAGE_SIZE -
          (instC4.targetAddress + instC4.bufferProgress) % EXTERNAL_FLASH_PAGE_SIZE) ∧
    1 ≤ writeChunk instC4.bufferSize instC4.bufferProgress instC4.targetAddress ∧
    writeChunk instC4.bufferSize instC4.bufferProgress instC4.targetAddress ≤ 256 ∧
    (instC4.targetAddress + instC4.bufferProgress) % 256 +
        writeChunk instC4.bufferSize instC4.bufferProgress instC4.targetAddress ≤ 256) :=
  ⟨rfl, rfl, rfl, rfl, rfl, by decide,
   C4_write_chunk_never_crosses_page_boundary cfgRef busAllOk 7 0 instC4 255
     (fun _ => true) (fun _ _ => true) rfl rfl rfl rfl rfl (by decide)⟩

/-- Witness for C6: the second `Write` (and a `Read`) issued on instance 0
while the first `Write`'s run-state is still in flight is rejected and leaves
the in-flight state untouched. -/
theorem C6_witness :
    (cfgRef.length ≤ 0 ∨ (instGet w300.s 0).busChannel = INVALID_VALUE_8 ∨
     ¬((instGet w300.s 0).process = NVProcess.pNone ∧
       (instGet w300.s 0).state = NVMState.stIdle)) ∧
    (externalFlash_Read cfgRef busAllOk 7 w300.s 0 200 0 8 =
       { success := false, s := w300.s, ops := [] } ∧
     externalFlash_Write cfgRef busAllOk 7 w300.s 0 200 0 8 =
       { success := false, s := w300.s, ops := [] }) :=
  ⟨by decide,
   C6_rejected_call_fails_and_preserves_state cfgRef busAllOk 7 w300.s 0 200 0 8 (by decide)⟩

/-- The `SEND_READ_HEADER` poll case fires no notification. -/
theorem pollSendReadHeader_notif_none (cfg : List FlashMapEntry)
    (bus : Nat → BusTransport) (fresh i : Nat) (inst : NVMInstance) (tmo : Nat) :
    (pollSendReadHeader cfg bus fresh i inst tmo).notif = none := by
  unfold pollSendReadHeader
  split_ifs <;> rfl

/-- The `SEND_WRITE_HEADER` poll case fires no notification. -/
theorem pollSendWriteHeader_notif_none (cfg : List FlashMapEntry)
    (bus : Nat → BusTransport) (fresh i : Nat) (inst : NVMInstance) (tmo : Nat) :
    (pollSendWriteHeader cfg bus fresh i inst tmo).notif = none := by
  unfold pollSendWriteHeader
  split_ifs with h
  · cases (bus (cfg.getD i defaultEntry).commBusId).start with
    | none => rfl
    | some st =>
      dsimp only
      split_ifs <;> rfl
  · rfl

/-- A notification fired by the `READ` poll case comes from the `read`
process guard and is exactly the record `mkNotify` fills. -/
theorem pollRead_notif_eq (i : Nat) (inst : NVMInstance) (tmo : Nat)
    (n : FlashNotify) (h : (pollRead i inst tmo).notif = some n) :
    inst.process = NVProcess.pRead ∧ n = mkNotify i inst := by
  unfold pollRead at h
  split_ifs at h with hp
  · dsimp only at h
    injection h with h2
    exact ⟨hp, h2.symm⟩
  · simp [pollNoop] at h

/-- A notification fired by the `WRITE` poll case comes from the `write`
process guard (on the completed branch) and is exactly `mkNotify`. -/
theorem pollWrite_notif_eq (cfg : List FlashMapEntry) (bus : Nat → BusTransport)
    (fresh i : Nat) (inst : NVMInstance) (tmo : Nat) (n : FlashNotify)
    (h : (pollWrite cfg bus fresh i inst tmo).notif = some n) :
    inst.process = NVProcess.pWrite ∧ n = mkNotify i inst := by
  unfold pollWrite at h
  split_ifs at h with hp hlt <;>
    simp [pollNoop] at h <;>
    exact ⟨hp, h.symm⟩

/-- C7: every completion notification the poll handler emits carries the
source instance id of the instance that finished, and a packed event value
combining the just-finished logical process marker (`read` or `write`) with
the operation's byte count `NVM_Buffer_Size` — the size the completed
operation transferred. -/
theorem C7_notification_carries_source_and_packed_value
    (cfg : List FlashMapEntry) (bus : Nat → BusTransport) (fresh i : Nat)
    (inst : NVMInstance) (tmo : Nat) (n : FlashNotify)
    (h : (pollInstance cfg bus fresh i inst tmo).notif = some n) :
    n.sourceInstanceId = i ∧
    n.eventValue = COMBINE_BYTES (processCode inst.process) inst.bufferSize ∧
    (inst.process = NVProcess.pRead ∨ inst.process = NVProcess.pWrite) := by
  unfold pollInstance at h
  split_ifs at h with h1 h2 h3 h4
  · rw [pollSendReadHeader_notif_none] at h
    cases h
  · obtain ⟨hp, hn⟩ := pollRead_notif_eq i inst tmo n h
    subst hn
    exact ⟨rfl, rfl, Or.inl hp⟩
  · rw [pollSendWriteHeader_notif_none] at h
    cases h
  · obtain ⟨hp, hn⟩ := pollWrite_notif_eq cfg bus fresh i inst tmo n h
    subst hn
    exact ⟨rfl, rfl, Or.inr hp⟩
  · simp [pollNoop] at h

/-- Witness for C7: a completed read on instance 0 (16 bytes requested) fires
the notification `(source 0, value 2·256 + 16)`. -/
theorem C7_witness :
    (pollInstance cfgRef busAllOk 7 0
        { defaultInstance with
          busChannel := 3, state := NVMState.stRead, process := NVProcess.pRead,
          bufferSize := 16 } 255).notif =
      some { sourceInstanceId := 0, eventValue := 528 } ∧
    (({ sourceInstanceId := 0, eventValue := 528 } : FlashNotify).sourceInstanceId = 0 ∧
     ({ sourceInstanceId := 0, eventValue := 528 } : FlashNotify).eventValue =
       COMBINE_BYTES
         (processCode ({ defaultInstance with
           busChannel := 3, state := NVMState.stRead, process := NVProcess.pRead,
           bufferSize := 16 } : NVMInstance).process)
         ({ defaultInstance with
           busChannel := 3, state := NVMState.stRead, process := NVProcess.pRead,
           bufferSize := 16 } : NVMInstance).bufferSize ∧
     (({ defaultInstance with
          busChannel := 3, state := NVMState.stRead, process := NVProcess.pRead,
          bufferSize := 16 } : NVMInstance).process = NVProcess.pRead ∨
      ({ defaultInstance with
          busChannel := 3, state := NVMState.stRead, process := NVProcess.pRead,
          bufferSize := 16 } : NVMInstance).process = NVProcess.pWrite)) :=
  ⟨by decide,
   C7_notification_carries_source_and_packed_value cfgRef busAllOk 7 0
     { defaultInstance with
       busChannel := 3, state := NVMState.stRead, process := NVProcess.pRead,
       bufferSize := 16 } 255
     { sourceInstanceId := 0, eventValue := 528 } (by decide)⟩

/-- The `CommBusEventHandler` search loop leaves everything unchanged and
makes no collaborator call when no instance from index `i` on matches the
event's provider and channel while holding a `wait-read`/`wait-write`
process. -/
theorem busEventLoop_no_waiting_match (cfg : List FlashMapEntry) (ev : BusEvent) :
    ∀ (insts : List NVMInstance) (i tmo : Nat),
      (∀ j, j < insts.length →
        ¬((cfg.getD (i + j) defaultEntry).commBusId = ev.genericProviderId ∧
          (insts.getD j defaultInstance).busChannel = ev.sourceInstanceId ∧
          isWaiting (insts.getD j defaultInstance).process = true)) →
      busEventLoop cfg ev insts i tmo = (insts, tmo, []) := by
  intro insts
  induction insts with
  | nil => intro i tmo _; rfl
  | cons inst rest ih =>
    intro i tmo h
    have h0 := h 0 (by simp)
    simp only [Nat.add_zero, List.getD_cons_zero] at h0
    have hshift : ∀ j, j < rest.length →
        ¬((cfg.getD (i + 1 + j) defaultEntry).commBusId = ev.genericProviderId ∧
          (rest.getD j defaultInstance).busChannel = ev.sourceInstanceId ∧
          isWaiting (rest.getD j defaultInstance).process = true) := by
      intro j hj
      have hlt : j + 1 < (inst :: rest).length := by
        simp only [List.length_cons]
        omega
      have := h (j + 1) hlt
      have e1 : i + (j + 1) = i + 1 + j := by omega
      rw [e1] at this
      simpa only [List.getD_cons_succ] using this
    unfold busEventLoop
    by_cases hc : (cfg.getD i defaultEntry).commBusId = ev.genericProviderId ∧
        inst.busChannel = ev.sourceInstanceId
    · rw [if_pos hc]
      cases hp : inst.process with
      | pWaitRead =>
        exfalso
        exact h0 ⟨hc.1, hc.2, by rw [hp]; rfl⟩
      | pWaitWrite =>
        exfalso
        exact h0 ⟨hc.1, hc.2, by rw [hp]; rfl⟩
      | pNone => simp [ih (i + 1) tmo hshift]
      | pRead => simp [ih (i + 1) tmo hshift]
      | pWrite => simp [ih (i + 1) tmo hshift]
    · rw [if_neg hc]
      simp [ih (i + 1) tmo hshift]

/-- C8: a bus-completion event whose provider id and channel handle match no
instance currently holding a `wait-read` or `wait-write` process leaves every
instance's run-state unchanged, keeps the shared timeout handle, and performs
no collaborator call — in particular it neither releases nor invalidates the
timeout handle. -/
theorem C8_unmatched_event_changes_nothing (cfg : List FlashMapEntry)
    (s : ModuleState) (ev : BusEvent)
    (h : ∀ j, j < s.instances.length →
      ¬((cfg.getD j defaultEntry).commBusId = ev.genericProviderId ∧
        (s.instances.getD j defaultInstance).busChannel = ev.sourceInstanceId ∧
        isWaiting (s.instances.getD j defaultInstance).process = true)) :
    commBusEventHandler cfg s ev = (s, []) := by
  unfold commBusEventHandler
  rw [busEventLoop_no_waiting_match cfg ev s.instances 0 s.timeoutHandle
    (by simpa using h)]

/-- Witness for C8: a completion event aimed at instance 0's provider and
channel while both instances sit idle (process `none`) is ignored: state and
timeout handle unchanged, no timer release. -/
theorem C8_witness :
    (∀ j, j < sIdle.instances.length →
      ¬((cfgRef.getD j defaultEntry).commBusId = (evLen 4).genericProviderId ∧
        (sIdle.instances.getD j defaultInstance).busChannel = (evLen 4).sourceInstanceId ∧
        isWaiting (sIdle.instances.getD j defaultInstance).process = true)) ∧
    commBusEventHandler cfgRef sIdle (evLen 4) = (sIdle, []) :=
  ⟨by decide, C8_unmatched_event_changes_nothing cfgRef sIdle (evLen 4) (by decide)⟩

/-- `findChannelIdx` finds nothing when no configured entry carries the
client's channel id. -/
theorem findChannelIdx_none (c : Nat) :
    ∀ (l : List FlashMapEntry), (∀ e ∈ l, e.channel ≠ c) →
      findChannelIdx l c = none := by
  intro l
  induction l with
  | nil => intro _; rfl
  | cons a t ih =>
    intro hl
    unfold findChannelIdx
    rw [if_neg (hl a (List.mem_cons_self a t))]
    rw [ih (fun x hx => hl x (List.mem_cons_of_mem a hx))]
    rfl

/-- C9 counterexample: on the reference configuration (channels 0 and 1),
`GetAllocation` for the unmatched client id 7 returns the instance count 2 —
not the `INVALID_VALUE_8` sentinel (255) — though it does leave every
instance's mirror pointer and memory offset unchanged. -/
theorem C9_counterexample :
    externalFlash_GetAllocation cfgRef sIdle 7 100 32 = (2, sIdle) ∧
    (externalFlash_GetAllocation cfgRef sIdle 7 100 32).1 ≠ INVALID_VALUE_8 := by
  decide

/-- C9 (amended): for a client id matching no configured instance's channel,
`GetAllocation` returns the configured-instance count — an out-of-range
instance id that every `Read`/`Write` guard rejects, serving as an invalid
id, but not the `INVALID_VALUE_8` sentinel the local variable was initialized
to — and modifies no instance's mirror pointer or memory offset (the module
state is returned untouched). -/
theorem C9_no_match_returns_count_and_preserves_state
    (cfg : List FlashMapEntry) (s : ModuleState) (clientId mirrorPtr offset : Nat)
    (h : ∀ e ∈ cfg, e.channel ≠ clientId % 256) :
    externalFlash_GetAllocation cfg s clientId mirrorPtr offset = (cfg.length, s) := by
  unfold externalFlash_GetAllocation
  rw [findChannelIdx_none (clientId % 256) cfg h]

/-- Witness for C9's amended statement at client id 9 on the reference map. -/
theorem C9_witness :
    (∀ e ∈ cfgRef, e.channel ≠ 9 % 256) ∧
    externalFlash_GetAllocation cfgRef sIdle 9 100 32 = (cfgRef.length, sIdle) :=
  ⟨by decide, C9_no_match_returns_count_and_preserves_state cfgRef sIdle 9 100 32 (by decide)⟩

end ExternalFlashBackup
